import Mathlib

/-!
Shallow embedding of the word_soul browser client
(`src/app/static/js/app.js`), covering the request pipeline
(`fetchWithAuth`), the refresh protocol (`refreshToken`), logout
(`handleLogout`), the turn-submission front end (`handleActionSubmit`,
the retry button listener), history rendering (`startGame`,
`renderGameTurn`, `appendLog`), narrative editing
(`saveNarrativeEdit`), and suggestion normalization
(`renderGameSuggestions`).

JavaScript dynamic values that the code inspects at runtime (suggestion
choices, action text) are embedded as the inductive `JsVal`; JS
truthiness is `jsTruthy`.  Network interaction is embedded by passing
the environment's responses as explicit arguments, and the unbounded
recursion of `fetchWithAuth` is embedded with explicit fuel, an
exhausted fuel denoting a run that has not terminated within that many
call attempts.
-/

namespace WordSoul

/-- Dynamic JS values relevant to the client: strings, `null`,
`undefined` (also standing for an absent field), and suggestion-choice
objects with fields `display_text`, `action_command` and `details`
(`details` is `some l` when the field holds an array, `none`
otherwise, which is all `renderGameSuggestions` distinguishes). -/
inductive JsVal where
  | vstr (s : String)
  | vnull
  | vundef
  | vobj (display_text : JsVal) (action_command : JsVal) (details : Option (List String))
deriving DecidableEq

/-- JS truthiness for the embedded values: `""`, `null` and `undefined`
are falsy; any non-empty string and any object is truthy. -/
def jsTruthy : JsVal → Bool
  | .vstr s => s ≠ ""
  | .vnull => false
  | .vundef => false
  | .vobj _ _ _ => true

/-- JS `String.prototype.trim()`: the string with leading and trailing
whitespace removed (embedded list-wise so it evaluates inside the
kernel). -/
def jsTrim (s : String) : String :=
  ⟨((s.data.dropWhile Char.isWhitespace).reverse.dropWhile Char.isWhitespace).reverse⟩

/-- A parsed HTTP response as `fetchWithAuth` inspects it: the status
code and the `error` field of the JSON body (`none` when the body has
no such field). -/
structure Response where
  status : Nat
  errorKind : Option String
deriving DecidableEq

/-- A parsed response of the `/api/refresh` endpoint: whether
`response.ok` held, and the `access_token` field of the body. -/
structure RefreshResp where
  ok : Bool
  accessToken : String
deriving DecidableEq

/-- The credential / navigation state the pipeline touches:
`state.accessToken`, `state.currentSessionId`, `state.currentWorldName`
(in-memory), the two persisted localStorage keys `access_token` and
`refresh_token`, and the currently shown view. -/
structure Store where
  accessTokenMem : Option String
  currentSessionId : Option String
  currentWorldName : Option String
  accessTokenLS : Option String
  refreshTokenLS : Option String
  view : String
deriving DecidableEq

/-- `handleLogout` (app.js lines 222-230): nulls the in-memory token and
session fields, removes both localStorage token keys, shows the auth
view. -/
def handleLogout (s : Store) : Store :=
  { s with
    accessTokenMem := none
    currentSessionId := none
    currentWorldName := none
    accessTokenLS := none
    refreshTokenLS := none
    view := "auth-view" }

/-- Outcome of one `refreshToken()` run: its boolean return value, the
resulting store, and how many network calls to the refresh endpoint it
made. -/
structure RefreshOut where
  success : Bool
  store : Store
  networkCalls : Nat
deriving DecidableEq

/-- `refreshToken` (app.js lines 135-157): reads
`localStorage.getItem('refresh_token')`; if that is falsy (absent or
empty) it returns `false` with no network call; otherwise it makes one
direct `fetch` of `/api/refresh` (not through `fetchWithAuth`), and on
`response.ok` stores the returned access token in localStorage and in
memory and returns `true`, else returns `false` leaving the store
untouched.  The response the environment would give is the `resp`
argument. -/
def refreshToken (resp : RefreshResp) (s : Store) : RefreshOut :=
  match s.refreshTokenLS with
  | none => { success := false, store := s, networkCalls := 0 }
  | some rt =>
    if rt = "" then { success := false, store := s, networkCalls := 0 }
    else if resp.ok then
      { success := true
        store := { s with
                   accessTokenLS := some resp.accessToken
                   accessTokenMem := some resp.accessToken }
        networkCalls := 1 }
    else { success := false, store := s, networkCalls := 1 }

/-- Result a `fetchWithAuth` caller observes: the raw response, `null`,
or non-termination within the given fuel (the source recursion has no
depth guard). -/
inductive FetchResult where
  | ok (r : Response)
  | noResponse
  | outOfFuel
deriving DecidableEq

/-- The only retry callback `fetchWithAuth` ever installs through
`handleApiError` is `handleLogout`. -/
inductive ErrAction where
  | logoutAction
deriving DecidableEq

/-- Running an installed error-retry callback. -/
def applyErrAction : ErrAction → Store → Store
  | .logoutAction, s => handleLogout s

/-- Everything one `fetchWithAuth` run produces: the caller-visible
result, the final store, how many times `refreshToken()` was invoked,
how many times the original call was re-issued, whether
`handleApiError` displayed an error (and with which retry callback),
and whether `handleLogout` ran during the handling itself. -/
structure FwaOut where
  result : FetchResult
  store : Store
  refreshAttempts : Nat
  replays : Nat
  errorShown : Bool
  errorRetry : Option ErrAction
  loggedOutDuring : Bool
deriving DecidableEq

/-- `fetchWithAuth` (app.js lines 66-103).  `calls k` is the response
the environment gives to the `k`-th issuance of the original
endpoint/options pair, and `rr k` the refresh endpoint's response to
the refresh attempted after issuance `k`.  On a 401 whose body's
`error` is `token_expired` it invokes `refreshToken`; on refresh
success it re-invokes itself on the same endpoint/options (the source
has no depth guard, embedded here as fuel); on refresh failure it runs
`handleLogout` and returns `null`; on any other 401 it calls
`handleApiError(message, handleLogout)` — which only displays the
message with a retry button — and returns `null`; otherwise it returns
the response untouched. -/
def fetchWithAuth (calls : Nat → Response) (rr : Nat → RefreshResp) :
    Nat → Nat → Store → FwaOut
  | 0, _, s =>
    { result := .outOfFuel, store := s, refreshAttempts := 0, replays := 0
      errorShown := false, errorRetry := none, loggedOutDuring := false }
  | fuel + 1, att, s =>
    let r := calls att
    if r.status = 401 then
      if r.errorKind = some "token_expired" then
        let ro := refreshToken (rr att) s
        if ro.success then
          let rest := fetchWithAuth calls rr fuel (att + 1) ro.store
          { rest with
            refreshAttempts := rest.refreshAttempts + 1
            replays := rest.replays + 1 }
        else
          { result := .noResponse, store := handleLogout ro.store
            refreshAttempts := 1, replays := 0
            errorShown := false, errorRetry := none, loggedOutDuring := true }
      else
        { result := .noResponse, store := s, refreshAttempts := 0, replays := 0
          errorShown := true, errorRetry := some .logoutAction
          loggedOutDuring := false }
    else
      { result := .ok r, store := s, refreshAttempts := 0, replays := 0
        errorShown := false, errorRetry := none, loggedOutDuring := false }

/-- A narrative history entry as the server returns it inside
`current_state.recent_history`: a role and the prose content. -/
structure HistoryEntry where
  role : String
  content : String
deriving DecidableEq

/-- One rendered `#game-log` entry.  `editButton = none` means
`appendLog` attached no edit control (its `type` was not `'ai'`);
`editButton = some hi` means an edit control was attached that will
call `saveNarrativeEdit` with `historyIndex = hi` (`hi = none` being
the local-only case where no server sync is attempted). -/
structure DisplayedEntry where
  content : String
  entryType : String
  editButton : Option (Option Nat)
deriving DecidableEq

/-- The log entry `appendLog` (app.js lines 664-687) builds: an edit
control (capturing `historyIndex`) is attached exactly when the `type`
argument is `'ai'`. -/
def mkLogEntry (text : String) (ty : String) (hidx : Option Nat) : DisplayedEntry :=
  { content := text
    entryType := ty
    editButton := if ty = "ai" then some hidx else none }

/-- `appendLog` appends the new entry at the bottom of the log. -/
def appendLog (log : List DisplayedEntry) (text : String) (ty : String)
    (hidx : Option Nat) : List DisplayedEntry :=
  log ++ [mkLogEntry text ty hidx]

/-- The history-restoring loop of `startGame` (app.js lines 510-516):
iterates over the reversed `recent_history` (oldest first), passing
each entry's role as the `type` and, for `role === 'assistant'`
entries, the entry's original server index
`recent_history.length - 1 - displayIndex` as `historyIndex`. -/
def loadHistoryLog (recent : List HistoryEntry) : List DisplayedEntry :=
  recent.reverse.enum.map fun p =>
    mkLogEntry p.2.content p.2.role
      (if p.2.role = "assistant" then some (recent.length - 1 - p.1) else none)

/-- Modelled from the spec: the server-side History Store's
`appendAtHead` (the backend holding the authoritative history is not
part of the client source under `src/`).  Spec §4.5: "shifts all
existing indices up by one and inserts at index 0, mirroring
server-side most-recent-first ordering". -/
def appendAtHead (e : HistoryEntry) (l : List HistoryEntry) : List HistoryEntry :=
  e :: l

/-- The fields of a turn response that `renderGameTurn` renders into
the log (`suggested_choices` and `current_state` are handled by other
components). -/
structure TurnData where
  description : Option String
  player_message : Option String
deriving DecidableEq

/-- The log mutation of `renderGameTurn` (app.js lines 615-630): a
truthy `description` is appended with type `'ai'` and `historyIndex`
`0` ("newly generated AI prose is always added at the head of the
history, index 0"); a truthy `player_message` is appended with type
`'message'`. -/
def renderGameTurn (log : List DisplayedEntry) (d : TurnData) : List DisplayedEntry :=
  let l1 := match d.description with
    | some t => if t ≠ "" then appendLog log t "ai" (some 0) else log
    | none => log
  match d.player_message with
  | some m => if m ≠ "" then appendLog l1 m "message" none else l1
  | none => l1

/-- The body of the `/sessions/id/update_narrative` request. -/
structure NarrativeUpdate where
  narrative : String
  history_index : Nat
deriving DecidableEq

/-- The request-issuing decision of `saveNarrativeEdit` (app.js lines
727-758): an all-whitespace new text is rejected (alert, no call); a
null/undefined `historyIndex` skips the server sync (local-only edit);
otherwise one `update_narrative` call is issued carrying the new text
and exactly the `historyIndex` the edit control captured. -/
def saveNarrativeEdit (newText : String) (historyIndex : Option Nat) :
    Option NarrativeUpdate :=
  if jsTrim newText = "" then none
  else
    match historyIndex with
    | some i => some { narrative := newText, history_index := i }
    | none => none

/-- A rendered suggestion button: its display text, the value its
click handler passes to `handleActionSubmit` as `actionText`, and the
details list shown, if any. -/
structure NormChoice where
  displayText : JsVal
  actionCommand : JsVal
  details : Option (List String)
deriving DecidableEq

/-- The per-choice logic of `renderGameSuggestions` (app.js lines
633-661): a choice that is an object with a truthy `display_text`
yields that text, the `action_command` field whenever it is not
`undefined` (falling back to `display_text` when it is), and its
`details` array when present; any other choice value is used as both
the button text and the submitted action. -/
def normalizeChoice : JsVal → NormChoice
  | .vobj dt ac det =>
    if jsTruthy dt then
      { displayText := dt
        actionCommand := if ac = .vundef then dt else ac
        details := det }
    else
      { displayText := .vobj dt ac det
        actionCommand := .vobj dt ac det
        details := none }
  | c => { displayText := c, actionCommand := c, details := none }

/-- `renderGameSuggestions` renders each raw choice in order. -/
def renderGameSuggestions (choices : List JsVal) : List NormChoice :=
  choices.map normalizeChoice

/-- The claim's wording of normalization, for comparison with
`normalizeChoice`: "a structured choice with a display-text field
yields displayText, actionCommand given by actionCommand ?? displayText
(nullish coalescing), and details; any other raw value is used as both
display text and action command". -/
def claimNormalizeChoice : JsVal → NormChoice
  | .vobj dt ac det =>
    if dt ≠ .vundef then
      { displayText := dt
        actionCommand := if ac = .vundef ∨ ac = .vnull then dt else ac
        details := det }
    else
      { displayText := .vobj dt ac det
        actionCommand := .vobj dt ac det
        details := none }
  | c => { displayText := c, actionCommand := c, details := none }

/-- The observable outcome of the validation-and-dispatch prefix of a
turn submission: the action POSTed to `/sessions/id/action` (`none`
when no network call is issued), the player log entry appended (`none`
when nothing is appended), the resulting `state.lastPlayerAction`, and
whether the input box was cleared. -/
structure SubmitOut where
  networkAction : Option JsVal
  playerLogAppend : Option JsVal
  lastPlayerAction : JsVal
  inputCleared : Bool
deriving DecidableEq

/-- The submission decision of `handleActionSubmit` (app.js lines
537-572): `action = actionText || actionInput.value.trim()`; a falsy
`action` returns before any side effect; otherwise
`state.lastPlayerAction` is set to `action`, the input box is cleared
when `actionText` itself was falsy, the player entry is appended, and
one network call with body `action` is issued.  (The handling of the
response — `renderGameTurn` on success, a system message on failure —
is embedded separately by `renderGameTurn`.) -/
def handleActionSubmit (actionText : JsVal) (box : String) (prevLast : JsVal) :
    SubmitOut :=
  let action := if jsTruthy actionText then actionText else .vstr (jsTrim box)
  if jsTruthy action then
    { networkAction := some action
      playerLogAppend := some action
      lastPlayerAction := action
      inputCleared := !jsTruthy actionText }
  else
    { networkAction := none
      playerLogAppend := none
      lastPlayerAction := prevLast
      inputCleared := false }

/-- The `retryAiBtn` click listener (app.js lines 604-612): a truthy
`state.lastPlayerAction` is re-submitted through
`handleActionSubmit(null, lastPlayerAction)`; otherwise an alert is
shown and nothing is submitted (`none`). -/
def retryClick (lastPA : JsVal) (box : String) : Option SubmitOut :=
  if jsTruthy lastPA then some (handleActionSubmit lastPA box lastPA) else none

/-- The parts of `current_state` that `startGame` consumes for the log
and the automatic first action. -/
structure CurrentState where
  recent_history : List HistoryEntry
  current_location : Option String
deriving DecidableEq

/-- A `/sessions/id` payload as `startGame` reads it; `current_state`
is `none` when the field is absent (or null). -/
structure SessionData where
  session_id : String
  world_name : String
  current_state : Option CurrentState
deriving DecidableEq

/-- The session-level client state `startGame` mutates. -/
structure GameState where
  currentSessionId : Option String
  currentWorldName : Option String
  gameLog : List DisplayedEntry
  actionInputValue : String
  view : String
deriving DecidableEq

/-- Result of a `startGame` run: the resulting client state, whether
`handleApiError` was invoked, and the action automatically submitted
for a fresh session (`none` when no automatic submission happens). -/
structure StartGameOut where
  g : GameState
  errorShown : Bool
  autoAction : Option String
deriving DecidableEq

/-- `startGame` (app.js lines 483-535): a falsy `current_state`
surfaces an error and returns before any mutation; otherwise the
session id and world name are stored, the log is cleared and the input
box emptied, the game view is shown, then either the existing history
is rendered via the restoring loop (`loadHistoryLog`), or — for an
empty history — a truthy `current_location` is appended as an `'ai'`
entry (with no `historyIndex`) and the action `"环顾四周"` is submitted
automatically. -/
def startGame (sd : SessionData) (g : GameState) : StartGameOut :=
  match sd.current_state with
  | none => { g := g, errorShown := true, autoAction := none }
  | some cs =>
    let g1 : GameState :=
      { currentSessionId := some sd.session_id
        currentWorldName := some sd.world_name
        gameLog := []
        actionInputValue := ""
        view := "game-view" }
    if cs.recent_history ≠ [] then
      { g := { g1 with gameLog := loadHistoryLog cs.recent_history }
        errorShown := false
        autoAction := none }
    else
      let g2 := match cs.current_location with
        | some loc => if loc ≠ "" then { g1 with gameLog := appendLog [] loc "ai" none } else g1
        | none => g1
      { g := g2, errorShown := false, autoAction := some "环顾四周" }

/-- Claim C1: "for every authenticated call that fails with a 401 whose
body is error token_expired, the pipeline performs at most one refresh
attempt and at most one replay, regardless of whether the replayed call
itself also returns 401 with token_expired; the replayed call never
triggers a further refresh".  The code violates this: with every
issuance of the call answered by 401 token_expired and the refresh
endpoint always succeeding, each replay triggers a further refresh —
within three attempts the pipeline has already performed three refresh
attempts and three replays and is still recursing (out of fuel),
instead of stopping after one refresh and one replay. -/
theorem c1_replay_triggers_further_refresh :
    fetchWithAuth (fun _ => { status := 401, errorKind := some "token_expired" })
      (fun _ => { ok := true, accessToken := "t2" }) 3 0
      { accessTokenMem := some "t1", currentSessionId := some "7"
        currentWorldName := some "w", accessTokenLS := some "t1"
        refreshTokenLS := some "r", view := "game-view" } =
    { result := .outOfFuel
      store := { accessTokenMem := some "t2", currentSessionId := some "7"
                 currentWorldName := some "w", accessTokenLS := some "t2"
                 refreshTokenLS := some "r", view := "game-view" }
      refreshAttempts := 3, replays := 3
      errorShown := false, errorRetry := none, loggedOutDuring := false } := by
  decide

/-- Claim C2: a call answered 401 token_expired whose subsequent
refresh attempt fails returns null to the caller and clears the
credential store: the in-memory access token becomes absent and both
persisted token keys are removed. -/
theorem c2_refresh_failure_clears_credentials
    (calls : Nat → Response) (rr : Nat → RefreshResp) (s : Store) (f att : Nat)
    (h401 : calls att = { status := 401, errorKind := some "token_expired" })
    (hfail : (refreshToken (rr att) s).success = false) :
    (fetchWithAuth calls rr (f + 1) att s).result = .noResponse ∧
    (fetchWithAuth calls rr (f + 1) att s).store.accessTokenMem = none ∧
    (fetchWithAuth calls rr (f + 1) att s).store.accessTokenLS = none ∧
    (fetchWithAuth calls rr (f + 1) att s).store.refreshTokenLS = none := by
  have h : fetchWithAuth calls rr (f + 1) att s =
      { result := .noResponse
        store := handleLogout (refreshToken (rr att) s).store
        refreshAttempts := 1, replays := 0
        errorShown := false, errorRetry := none, loggedOutDuring := true } := by
    simp [fetchWithAuth, h401, hfail]
  rw [h]
  simp [handleLogout]

/-- Witness for C2 at a concrete input: the call answers 401
token_expired, the refresh endpoint rejects, the store initially holds
both tokens; the run returns null with all three credential slots
cleared. -/
theorem c2_refresh_failure_clears_credentials_witness :
    ((fun _ => ({ status := 401, errorKind := some "token_expired" } : Response)) 0 =
      { status := 401, errorKind := some "token_expired" }) ∧
    ((refreshToken ((fun _ => ({ ok := false, accessToken := "x" } : RefreshResp)) 0)
        { accessTokenMem := some "t1", currentSessionId := some "7"
          currentWorldName := some "w", accessTokenLS := some "t1"
          refreshTokenLS := some "r", view := "game-view" }).success = false) ∧
    ((fetchWithAuth (fun _ => { status := 401, errorKind := some "token_expired" })
        (fun _ => { ok := false, accessToken := "x" }) 1 0
        { accessTokenMem := some "t1", currentSessionId := some "7"
          currentWorldName := some "w", accessTokenLS := some "t1"
          refreshTokenLS := some "r", view := "game-view" }).result = .noResponse ∧
      (fetchWithAuth (fun _ => { status := 401, errorKind := some "token_expired" })
        (fun _ => { ok := false, accessToken := "x" }) 1 0
        { accessTokenMem := some "t1", currentSessionId := some "7"
          currentWorldName := some "w", accessTokenLS := some "t1"
          refreshTokenLS := some "r", view := "game-view" }).store.accessTokenMem = none ∧
      (fetchWithAuth (fun _ => { status := 401, errorKind := some "token_expired" })
        (fun _ => { ok := false, accessToken := "x" }) 1 0
        { accessTokenMem := some "t1", currentSessionId := some "7"
          currentWorldName := some "w", accessTokenLS := some "t1"
          refreshTokenLS := some "r", view := "game-view" }).store.accessTokenLS = none ∧
      (fetchWithAuth (fun _ => { status := 401, errorKind := some "token_expired" })
        (fun _ => { ok := false, accessToken := "x" }) 1 0
        { accessTokenMem := some "t1", currentSessionId := some "7"
          currentWorldName := some "w", accessTokenLS := some "t1"
          refreshTokenLS := some "r", view := "game-view" }).store.refreshTokenLS = none) :=
  ⟨rfl, by decide,
    c2_refresh_failure_clears_credentials _ _ _ 0 0 rfl (by decide)⟩

/-- Claim C4 as stated is false: on a 401 whose error kind is not
token_expired, `fetchWithAuth` does not force logout as part of
handling the response — at this concrete input (401 with error kind
"invalid", store holding both tokens) the run returns with the store
unchanged, both tokens still present and `handleLogout` never executed;
only the error message with a retry control (whose callback is the
logout) is displayed. -/
theorem c4_no_logout_counterexample :
    fetchWithAuth (fun _ => { status := 401, errorKind := some "invalid" })
      (fun _ => { ok := true, accessToken := "t2" }) 1 0
      { accessTokenMem := some "t1", currentSessionId := some "7"
        currentWorldName := some "w", accessTokenLS := some "t1"
        refreshTokenLS := some "r", view := "game-view" } =
    { result := .noResponse
      store := { accessTokenMem := some "t1", currentSessionId := some "7"
                 currentWorldName := some "w", accessTokenLS := some "t1"
                 refreshTokenLS := some "r", view := "game-view" }
      refreshAttempts := 0, replays := 0
      errorShown := true, errorRetry := some .logoutAction
      loggedOutDuring := false } := by
  decide

/-- Claim C4 amended: on a 401 whose error kind is not token_expired,
the pipeline surfaces a user-visible error whose retry affordance is
the forced logout, and returns null; the credential store is left
untouched by the handling itself, and it is invoking the retry
affordance that clears the credentials and navigates to the
unauthenticated view. -/
theorem c4_error_retry_is_logout
    (calls : Nat → Response) (rr : Nat → RefreshResp) (s : Store) (f att : Nat)
    (h401 : (calls att).status = 401)
    (hkind : (calls att).errorKind ≠ some "token_expired") :
    fetchWithAuth calls rr (f + 1) att s =
      { result := .noResponse, store := s, refreshAttempts := 0, replays := 0
        errorShown := true, errorRetry := some .logoutAction
        loggedOutDuring := false } ∧
    (applyErrAction .logoutAction s).accessTokenMem = none ∧
    (applyErrAction .logoutAction s).accessTokenLS = none ∧
    (applyErrAction .logoutAction s).refreshTokenLS = none ∧
    (applyErrAction .logoutAction s).view = "auth-view" := by
  refine ⟨?_, ?_, ?_, ?_, ?_⟩ <;>
    simp [fetchWithAuth, h401, hkind, applyErrAction, handleLogout]

/-- Witness for the amended C4 at a concrete input: a 401 with error
kind "invalid" yields the error display with the logout retry callback,
an untouched store and a null result, and running the callback clears
every credential slot and shows the auth view. -/
theorem c4_error_retry_is_logout_witness :
    ((fun _ => ({ status := 401, errorKind := some "invalid" } : Response)) 0).status = 401 ∧
    ((fun _ => ({ status := 401, errorKind := some "invalid" } : Response)) 0).errorKind ≠
      some "token_expired" ∧
    (fetchWithAuth (fun _ => { status := 401, errorKind := some "invalid" })
        (fun _ => { ok := true, accessToken := "t2" }) 1 0
        { accessTokenMem := some "t1", currentSessionId := some "7"
          currentWorldName := some "w", accessTokenLS := some "t1"
          refreshTokenLS := some "r", view := "game-view" } =
      { result := .noResponse
        store := { accessTokenMem := some "t1", currentSessionId := some "7"
                   currentWorldName := some "w", accessTokenLS := some "t1"
                   refreshTokenLS := some "r", view := "game-view" }
        refreshAttempts := 0, replays := 0
        errorShown := true, errorRetry := some .logoutAction
        loggedOutDuring := false } ∧
      (applyErrAction .logoutAction
        { accessTokenMem := some "t1", currentSessionId := some "7"
          currentWorldName := some "w", accessTokenLS := some "t1"
          refreshTokenLS := some "r", view := "game-view" }).accessTokenMem = none ∧
      (applyErrAction .logoutAction
        { accessTokenMem := some "t1", currentSessionId := some "7"
          currentWorldName := some "w", accessTokenLS := some "t1"
          refreshTokenLS := some "r", view := "game-view" }).accessTokenLS = none ∧
      (applyErrAction .logoutAction
        { accessTokenMem := some "t1", currentSessionId := some "7"
          currentWorldName := some "w", accessTokenLS := some "t1"
          refreshTokenLS := some "r", view := "game-view" }).refreshTokenLS = none ∧
      (applyErrAction .logoutAction
        { accessTokenMem := some "t1", currentSessionId := some "7"
          currentWorldName := some "w", accessTokenLS := some "t1"
          refreshTokenLS := some "r", view := "game-view" }).view = "auth-view") :=
  ⟨rfl, by decide, c4_error_retry_is_logout _ _ _ 0 0 rfl (by decide)⟩

/-- Claim C6: `refreshToken` returns failure immediately with no
network call when the stored refresh token is absent; otherwise it
makes exactly one call to the refresh endpoint (directly, never through
the pipeline — the definition of `refreshToken` makes no use of
`fetchWithAuth`), stores the returned access token and returns success
on HTTP success, and returns failure with the store untouched on HTTP
failure. -/
theorem c6_refresh_protocol (resp : RefreshResp) (s : Store) :
    (s.refreshTokenLS = none →
      refreshToken resp s = { success := false, store := s, networkCalls := 0 }) ∧
    (∀ rt, s.refreshTokenLS = some rt → rt ≠ "" → resp.ok = true →
      refreshToken resp s =
        { success := true
          store := { s with accessTokenLS := some resp.accessToken
                            accessTokenMem := some resp.accessToken }
          networkCalls := 1 }) ∧
    (∀ rt, s.refreshTokenLS = some rt → rt ≠ "" → resp.ok = false →
      refreshToken resp s = { success := false, store := s, networkCalls := 1 }) := by
  refine ⟨fun h => ?_, fun rt h hrt hok => ?_, fun rt h hrt hok => ?_⟩
  · simp [refreshToken, h]
  · simp [refreshToken, h, hrt, hok]
  · simp [refreshToken, h, hrt, hok]

/-- Witness for C6 at a concrete input: with refresh token "r" stored
and the endpoint answering ok with access token "n", the protocol
succeeds with one network call and both access-token slots updated. -/
theorem c6_refresh_protocol_witness :
    ({ accessTokenMem := some "t1", currentSessionId := none
       currentWorldName := none, accessTokenLS := some "t1"
       refreshTokenLS := some "r", view := "main-menu-view" } : Store).refreshTokenLS =
      some "r" ∧
    ("r" : String) ≠ "" ∧
    ({ ok := true, accessToken := "n" } : RefreshResp).ok = true ∧
    refreshToken { ok := true, accessToken := "n" }
      { accessTokenMem := some "t1", currentSessionId := none
        currentWorldName := none, accessTokenLS := some "t1"
        refreshTokenLS := some "r", view := "main-menu-view" } =
      { success := true
        store := { accessTokenMem := some "n", currentSessionId := none
                   currentWorldName := none, accessTokenLS := some "n"
                   refreshTokenLS := some "r", view := "main-menu-view" }
        networkCalls := 1 } :=
  ⟨rfl, by decide, rfl,
    (c6_refresh_protocol { ok := true, accessToken := "n" }
      { accessTokenMem := some "t1", currentSessionId := none
        currentWorldName := none, accessTokenLS := some "t1"
        refreshTokenLS := some "r", view := "main-menu-view" }).2.1
      "r" rfl (by decide) rfl⟩

/-- Claim C5 as stated is false: a whitespace-only action passed
directly as the `actionText` argument is truthy in JS, so
`handleActionSubmit` accepts it — at the concrete input `" "` it issues
the network call and appends the player log entry instead of rejecting
the submission. -/
theorem c5_whitespace_action_counterexample :
    handleActionSubmit (.vstr " ") "" .vnull =
      { networkAction := some (.vstr " ")
        playerLogAppend := some (.vstr " ")
        lastPlayerAction := .vstr " "
        inputCleared := false } := by
  decide

/-- Claim C5 amended: a submission with no usable action text — a falsy
`actionText` argument (absent, null or the empty string) together with
an input box that is empty after trimming — is rejected before any side
effect: no network call, no log append, `lastPlayerAction` kept and the
input box untouched.  Only the input-box path trims; a non-empty
`actionText` argument, even whitespace-only, is submitted verbatim. -/
theorem c5_empty_submission_rejected (actionText : JsVal) (box : String)
    (prevLast : JsVal)
    (hfalsy : jsTruthy actionText = false) (hbox : jsTrim box = "") :
    handleActionSubmit actionText box prevLast =
      { networkAction := none, playerLogAppend := none
        lastPlayerAction := prevLast, inputCleared := false } ∧
    (∀ s : String, s ≠ "" →
      handleActionSubmit (.vstr s) box prevLast =
        { networkAction := some (.vstr s), playerLogAppend := some (.vstr s)
          lastPlayerAction := .vstr s, inputCleared := false }) := by
  constructor
  · simp only [handleActionSubmit, hfalsy, hbox]
    simp [jsTruthy]
  · intro s hs
    simp [handleActionSubmit, jsTruthy, hs]

/-- Witness for the amended C5 at a concrete input: `actionText` null
and a whitespace-only input box produce no network call and no log
append. -/
theorem c5_empty_submission_rejected_witness :
    jsTruthy JsVal.vnull = false ∧
    jsTrim "   " = "" ∧
    handleActionSubmit JsVal.vnull "   " JsVal.vnull =
      { networkAction := none, playerLogAppend := none
        lastPlayerAction := JsVal.vnull, inputCleared := false } :=
  ⟨rfl, by decide,
    (c5_empty_submission_rejected JsVal.vnull "   " JsVal.vnull rfl (by decide)).1⟩

/-- Claim C7 as stated is false on the general clause: for a structured
choice whose `action_command` field is present but null, the code keeps
the null (its guard is `action_command !== undefined`), while the
claim's `actionCommand ?? displayText` would coalesce the null into the
display text — at the concrete input with display text "攻击" and a
null action command, the two disagree. -/
theorem c7_null_action_command_counterexample :
    (normalizeChoice (.vobj (.vstr "攻击") .vnull none)).actionCommand = .vnull ∧
    (claimNormalizeChoice (.vobj (.vstr "攻击") .vnull none)).actionCommand =
      .vstr "攻击" ∧
    normalizeChoice (.vobj (.vstr "攻击") .vnull none) ≠
      claimNormalizeChoice (.vobj (.vstr "攻击") .vnull none) := by
  decide

/-- Claim C7 amended: the legacy string "look around" and the
structured 攻击 example normalize exactly as the claim says; in general
a structured choice whose display-text field is truthy (a non-empty
string or an object) yields that display text, the `action_command`
field whenever it is defined — including a null one — and the display
text only when `action_command` is undefined, together with its
details; a structured choice whose display-text field is falsy (absent,
null or empty), like any other raw value, is used as both display text
and action command. -/
theorem c7_choice_normalization :
    normalizeChoice (.vstr "look around") =
      { displayText := .vstr "look around", actionCommand := .vstr "look around"
        details := none } ∧
    normalizeChoice (.vobj (.vstr "攻击") .vundef (some ["力量+2"])) =
      { displayText := .vstr "攻击", actionCommand := .vstr "攻击"
        details := some ["力量+2"] } ∧
    (∀ (dt ac : JsVal) (det : Option (List String)), jsTruthy dt = true →
      normalizeChoice (.vobj dt ac det) =
        { displayText := dt
          actionCommand := if ac = .vundef then dt else ac
          details := det }) ∧
    (∀ (dt ac : JsVal) (det : Option (List String)), jsTruthy dt = false →
      normalizeChoice (.vobj dt ac det) =
        { displayText := .vobj dt ac det, actionCommand := .vobj dt ac det
          details := none }) ∧
    (∀ s : String, normalizeChoice (.vstr s) =
      { displayText := .vstr s, actionCommand := .vstr s, details := none }) := by
  refine ⟨by decide, by decide, fun dt ac det h => ?_, fun dt ac det h => ?_,
    fun s => ?_⟩
  · simp [normalizeChoice, h]
  · simp [normalizeChoice, h]
  · simp [normalizeChoice]

/-- Witness for the amended C7 at a concrete input: a truthy display
text "a" with a null action command normalizes to a null action
command. -/
theorem c7_choice_normalization_witness :
    jsTruthy (JsVal.vstr "a") = true ∧
    normalizeChoice (.vobj (.vstr "a") .vnull none) =
      { displayText := .vstr "a"
        actionCommand := if JsVal.vnull = JsVal.vundef then .vstr "a" else .vnull
        details := none } :=
  ⟨rfl, c7_choice_normalization.2.2.1 (.vstr "a") .vnull none rfl⟩

/-- Claim C8: whenever a submission goes through (a network call with
action `a` is issued), `state.lastPlayerAction` records exactly `a`,
and invoking the retry affordance afterwards — whatever the input box
then contains — re-submits exactly `a`, not the box contents. -/
theorem c8_retry_resubmits_last_action (actionText : JsVal) (box box2 : String)
    (prevLast a : JsVal)
    (hsub : (handleActionSubmit actionText box prevLast).networkAction = some a) :
    (handleActionSubmit actionText box prevLast).lastPlayerAction = a ∧
    retryClick (handleActionSubmit actionText box prevLast).lastPlayerAction box2 =
      some (handleActionSubmit a box2 a) ∧
    (handleActionSubmit a box2 a).networkAction = some a := by
  by_cases ht : jsTruthy (if jsTruthy actionText then actionText else .vstr (jsTrim box)) = true
  · have hact : (if jsTruthy actionText then actionText else .vstr (jsTrim box)) = a := by
      simp only [handleActionSubmit, ht, if_true] at hsub
      exact Option.some.inj hsub
    have hta : jsTruthy a = true := hact ▸ ht
    have hlast : (handleActionSubmit actionText box prevLast).lastPlayerAction = a := by
      simp only [handleActionSubmit, ht, if_true]
      exact hact
    refine ⟨hlast, ?_, ?_⟩
    · rw [hlast]
      simp [retryClick, hta]
    · simp [handleActionSubmit, hta]
  · exfalso
    simp only [handleActionSubmit, ht, if_false] at hsub
    exact Option.noConfusion hsub

/-- Witness for C8 at a concrete input: submitting "go north" with the
box later holding "something else" still makes the retry affordance
re-submit "go north". -/
theorem c8_retry_resubmits_last_action_witness :
    (handleActionSubmit (.vstr "go north") "" .vnull).networkAction =
      some (.vstr "go north") ∧
    ((handleActionSubmit (.vstr "go north") "" .vnull).lastPlayerAction =
        JsVal.vstr "go north" ∧
      retryClick (handleActionSubmit (.vstr "go north") "" .vnull).lastPlayerAction
          "something else" =
        some (handleActionSubmit (.vstr "go north") "something else"
          (.vstr "go north")) ∧
      (handleActionSubmit (.vstr "go north") "something else"
          (.vstr "go north")).networkAction = some (.vstr "go north")) :=
  ⟨by decide,
    c8_retry_resubmits_last_action (.vstr "go north") "" "something else" .vnull
      (.vstr "go north") (by decide)⟩

/-- Claim C9: a structured choice with a truthy display text and an
empty-string `action_command` produces a button whose click submits the
empty string as `actionText`; `handleActionSubmit` then falls back to
the trimmed input box — rejecting the submission when the box is empty,
submitting the trimmed box contents otherwise — and the empty action
command itself is never sent. -/
theorem c9_empty_action_command_fallback :
    (∀ (dt : JsVal) (det : Option (List String)), jsTruthy dt = true →
      (normalizeChoice (.vobj dt (.vstr "") det)).actionCommand = .vstr "") ∧
    (∀ (box : String) (prevLast : JsVal),
      handleActionSubmit (.vstr "") box prevLast =
        if jsTrim box = "" then
          { networkAction := none, playerLogAppend := none
            lastPlayerAction := prevLast, inputCleared := false }
        else
          { networkAction := some (.vstr (jsTrim box))
            playerLogAppend := some (.vstr (jsTrim box))
            lastPlayerAction := .vstr (jsTrim box), inputCleared := true }) ∧
    (∀ (box : String) (prevLast : JsVal),
      (handleActionSubmit (.vstr "") box prevLast).networkAction ≠
        some (.vstr "")) := by
  refine ⟨fun dt det h => ?_, fun box prevLast => ?_, fun box prevLast => ?_⟩
  · simp [normalizeChoice, h]
  · by_cases hbox : jsTrim box = ""
    · simp [handleActionSubmit, jsTruthy, hbox]
    · simp [handleActionSubmit, jsTruthy, hbox]
  · by_cases hbox : jsTrim box = ""
    · simp [handleActionSubmit, jsTruthy, hbox]
    · simp [handleActionSubmit, jsTruthy, hbox]

/-- Witness for C9 at concrete inputs: display text "查看" with empty
action command yields an empty submitted `actionText`; with box
`" 看 "` the trimmed box contents are submitted; with an empty box
nothing is submitted. -/
theorem c9_empty_action_command_fallback_witness :
    jsTruthy (JsVal.vstr "查看") = true ∧
    (normalizeChoice (.vobj (.vstr "查看") (.vstr "") none)).actionCommand =
      .vstr "" ∧
    handleActionSubmit (.vstr "") " 看 " .vnull =
      (if jsTrim " 看 " = "" then
        { networkAction := none, playerLogAppend := none
          lastPlayerAction := JsVal.vnull, inputCleared := false }
      else
        { networkAction := some (.vstr (jsTrim " 看 "))
          playerLogAppend := some (.vstr (jsTrim " 看 "))
          lastPlayerAction := .vstr (jsTrim " 看 ")
          inputCleared := true }) ∧
    (handleActionSubmit (.vstr "") "" JsVal.vnull).networkAction ≠
      some (.vstr "") :=
  ⟨rfl, c9_empty_action_command_fallback.1 (.vstr "查看") none rfl,
    c9_empty_action_command_fallback.2.1 " 看 " .vnull,
    c9_empty_action_command_fallback.2.2 "" .vnull⟩

/-- Claim C3 as stated is false on its final clause: after two turns
(narrator prose "d1" then "d2"), the displayed entry for "d1" still
carries the edit control captured at its own render time, which submits
`history_index` 0 — but in server order (newest first) "d1" now sits at
index 1 and index 0 addresses "d2", so the submitted index does not
equal the entry's current server position after an append. -/
theorem c3_stale_index_counterexample :
    (renderGameTurn
        (renderGameTurn [] { description := some "d1", player_message := none })
        { description := some "d2", player_message := none })[0]? =
      some { content := "d1", entryType := "ai", editButton := some (some 0) } ∧
    saveNarrativeEdit "d1 edited" (some 0) =
      some { narrative := "d1 edited", history_index := 0 } ∧
    (appendAtHead { role := "assistant", content := "d2" }
        (appendAtHead { role := "assistant", content := "d1" } []))[0]? =
      some { role := "assistant", content := "d2" } ∧
    (appendAtHead { role := "assistant", content := "d2" }
        (appendAtHead { role := "assistant", content := "d1" } []))[1]? =
      some { role := "assistant", content := "d1" } := by
  decide

/-- Claim C3 amended: appending a new head entry shifts every existing
server index by exactly +1, so an edit addressed by index i after the
append targets the entry that was at index i-1 before it; at load time
each restored entry's captured index equals its server position; but
the client never re-indexes already-rendered entries — a new turn only
appends a narrator entry whose edit control captures index 0, leaving
every existing displayed entry (and its captured index) unchanged, so
after an append an existing entry's submitted index lags its shifted
server position until the history is reloaded.  Moreover the restoring
loop passes each entry's role as the display type, so no loaded entry
receives a server-addressing edit control at all. -/
theorem c3_index_shift :
    (∀ (e : HistoryEntry) (l : List HistoryEntry) (i : Nat),
      (appendAtHead e l)[i + 1]? = l[i]?) ∧
    (∀ (recent : List HistoryEntry) (j : Nat) (en : HistoryEntry),
      recent[j]? = some en →
      (loadHistoryLog recent)[recent.length - 1 - j]? =
        some (mkLogEntry en.content en.role
          (if en.role = "assistant" then some j else none))) ∧
    (∀ (log : List DisplayedEntry) (t : String), t ≠ "" →
      renderGameTurn log { description := some t, player_message := none } =
        log ++ [{ content := t, entryType := "ai", editButton := some (some 0) }]) ∧
    (∀ (recent : List HistoryEntry) (en : DisplayedEntry),
      en ∈ loadHistoryLog recent →
      en.editButton = none ∨ en.editButton = some none) := by
  refine ⟨fun e l i => by simp [appendAtHead], ?_, ?_, ?_⟩
  · intro recent j en hj
    have hjlt : j < recent.length := by
      by_contra hge
      rw [List.getElem?_eq_none (Nat.le_of_not_lt hge)] at hj
      exact Option.noConfusion hj
    have hk : recent.length - 1 - (recent.length - 1 - j) = j := by omega
    unfold loadHistoryLog
    rw [List.getElem?_map, List.getElem?_enum,
      List.getElem?_reverse (by omega), hk, hj]
    simp [hk]
  · intro log t ht
    simp [renderGameTurn, appendLog, mkLogEntry, ht]
  · intro recent en hen
    unfold loadHistoryLog at hen
    rw [List.mem_map] at hen
    obtain ⟨p, _, rfl⟩ := hen
    by_cases hr : p.2.role = "ai"
    · right
      simp [mkLogEntry, hr]
    · left
      simp [mkLogEntry, hr]

/-- Witness for the amended C3 at concrete inputs: the server history
[assistant "a", player "p"] restores the assistant entry at display
position 1 with captured index 0, and rendering a new turn "d" onto an
empty log appends exactly the narrator entry with captured index 0. -/
theorem c3_index_shift_witness :
    ([({ role := "assistant", content := "a" } : HistoryEntry),
      { role := "player", content := "p" }])[0]? =
      some { role := "assistant", content := "a" } ∧
    ("d" : String) ≠ "" ∧
    (loadHistoryLog [{ role := "assistant", content := "a" },
        { role := "player", content := "p" }])[1]? =
      some (mkLogEntry "a" "assistant"
        (if ("assistant" : String) = "assistant" then some 0 else none)) ∧
    renderGameTurn [] { description := some "d", player_message := none } =
      [] ++ [{ content := "d", entryType := "ai", editButton := some (some 0) }] :=
  ⟨rfl, by decide,
    by
      have h := c3_index_shift.2.1
        [{ role := "assistant", content := "a" }, { role := "player", content := "p" }]
        0 { role := "assistant", content := "a" } rfl
      simpa using h,
    c3_index_shift.2.2.1 [] "d" (by decide)⟩

/-- Claim C10: loading a session payload whose `current_state` is
absent surfaces an error and performs no session mutation — the session
id, world name, game log, input box and view all keep their previous
values, and no automatic action submission is triggered. -/
theorem c10_missing_current_state_no_mutation (sd : SessionData) (g : GameState)
    (h : sd.current_state = none) :
    startGame sd g = { g := g, errorShown := true, autoAction := none } := by
  simp [startGame, h]

/-- Witness for C10 at a concrete input: a payload for session "7"
without `current_state`, against a state currently in the main menu
with a non-empty log, is rejected with everything unchanged. -/
theorem c10_missing_current_state_no_mutation_witness :
    ({ session_id := "7", world_name := "w", current_state := none } :
      SessionData).current_state = none ∧
    startGame { session_id := "7", world_name := "w", current_state := none }
      { currentSessionId := some "3", currentWorldName := some "old"
        gameLog := [{ content := "x", entryType := "ai", editButton := some (some 0) }]
        actionInputValue := "typed", view := "main-menu-view" } =
      { g := { currentSessionId := some "3", currentWorldName := some "old"
               gameLog := [{ content := "x", entryType := "ai"
                             editButton := some (some 0) }]
               actionInputValue := "typed", view := "main-menu-view" }
        errorShown := true, autoAction := none } :=
  ⟨rfl,
    c10_missing_current_state_no_mutation
      { session_id := "7", world_name := "w", current_state := none } _ rfl⟩

end WordSoul
